import Mathlib

/-!
Shallow embedding of the order-fulfillment core of the e-commerce repository:
`utils/database.py`, `services/inventory_service.py`,
`services/payment_processor.py` and `api/checkout.py`.

Python dictionaries are modelled as association lists (`List (String × β)`);
dictionary assignment `d[k] = v` replaces the value in place when the key is
present and appends otherwise, matching insertion-order-preserving Python
dicts.  Python exceptions are modelled with `Except Err`; since Python
exceptions do not roll back state, every stateful operation returns
`Except Err α × State`, where the returned state reflects all mutations made
before the exception was raised.  The `asyncio` locks in the source make each
operation a single critical section, so each operation is one atomic step of
the model.  Money is modelled with `Rat` (the source uses Python floats; all
amounts in the claims are exactly representable).  `uuid4`-generated fresh
identifiers are modelled as explicitly supplied identifier arguments or
injective generator streams.
-/

deriving instance DecidableEq for Except

/- `Rat` arithmetic is `@[irreducible]` in Batteries; restore the default
reducibility so that concrete monetary computations evaluate under
`decide`. -/
set_option allowUnsafeReducibility true
attribute [semireducible] Rat.mul Rat.add Rat.div Rat.sub Rat.inv
  Rat.ofScientific

namespace ECom

/-- Python dict assignment `d[k] = v`: replace in place if present, else
append at the end. -/
def setA {β : Type} (k : String) (v : β) (l : List (String × β)) :
    List (String × β) :=
  if l.any (fun p => p.1 = k) then
    l.map (fun p => if p.1 = k then (k, v) else p)
  else
    l ++ [(k, v)]

/-- Python dict lookup `d.get(k)`: the value stored under the key, if
any. -/
def lookupA {β : Type} (k : String) : List (String × β) → Option β
  | [] => none
  | p :: t => if p.1 = k then some p.2 else lookupA k t

/-- Python truthiness of an optional string argument (`if reservation_id:`):
`None` and the empty string are falsy. -/
def truthyS : Option String → Bool
  | none => false
  | some s => s ≠ ""

/-- Python truthiness of an optional int argument (`elif product_id and
quantity:`): `None` and `0` are falsy. -/
def truthyI : Option Int → Bool
  | none => false
  | some n => n ≠ 0

/-! ## Data model -/

/-- Reservation status: `'active'`, `'confirmed'` or `'released'`
(`services/inventory_service.py`). -/
inductive RStatus where
  | active
  | confirmed
  | released
  deriving DecidableEq, Repr

/-- One entry of the `_reservations` dict in `services/inventory_service.py`
(timestamps omitted: no claim mentions them). -/
structure Reservation where
  productId : String
  quantity : Int
  orderId : String
  status : RStatus
  deriving DecidableEq, Repr

/-- A product record in `_DATABASE['products']` (`utils/database.py`);
`is_active` defaults to `True` via `product.get` in `api/checkout.py`. -/
structure ProductRec where
  name : String
  price : Rat
  is_active : Bool := true
  deriving DecidableEq, Repr

/-- A user record in `_DATABASE['users']`; `is_active` defaults to `True`
via `user.get` in `api/checkout.py`. -/
structure UserRec where
  email : String
  is_active : Bool := true
  deriving DecidableEq, Repr

/-- One line item of an order as built by `OrderItem` in `models/order.py`. -/
structure OrderItem where
  product_id : String
  product_name : String
  quantity : Int
  unit_price : Rat
  total_price : Rat
  deriving DecidableEq, Repr

/-- An order record in `_DATABASE['orders']` as written by `save_order`
(`utils/database.py`): the caller's fields plus the metadata added there. -/
structure OrderRec where
  user_id : String
  products : List OrderItem
  total_amount : Rat
  payment_status : String
  payment_transaction_id : Option String
  status : String
  deriving DecidableEq, Repr

/-- The `_DATABASE` global of `utils/database.py`.  Inventory rows reduce to
their `quantity` field. -/
structure DB where
  users : List (String × UserRec)
  products : List (String × ProductRec)
  orders : List (String × OrderRec)
  inventory : List (String × Int)
  deriving DecidableEq, Repr

/-- Whole-system state: the database plus the `_reservations` dict of
`services/inventory_service.py`. -/
structure SysState where
  db : DB
  reservations : List (String × Reservation)
  deriving DecidableEq, Repr

/-- Python exception classes raised by the embedded modules.  The checkout
handlers match on them exactly as the `except` clauses of
`api/checkout.py` do. -/
inductive Err where
  | valueError
  | runtimeError
  | invalidProduct
  | insufficientStock
  | inventoryError
  | validationError
  | insufficientFunds
  | invalidCard
  | paymentGateway
  | paymentError
  | checkoutProcessing
  deriving DecidableEq, Repr

/-! ## utils/database.py -/

/-- `get_user_by_id`: `ValueError` on an empty id, otherwise a read-only
lookup. -/
def get_user_by_id (user_id : String) (db : DB) :
    Except Err (Option UserRec) :=
  if user_id = "" then .error .valueError
  else .ok (lookupA user_id db.users)

/-- `get_product_by_id`: `ValueError` on an empty id, otherwise a read-only
lookup. -/
def get_product_by_id (product_id : String) (db : DB) :
    Except Err (Option ProductRec) :=
  if product_id = "" then .error .valueError
  else .ok (lookupA product_id db.products)

/-- `update_inventory`: missing rows default to quantity `0`; raises
`RuntimeError` before writing when the change would drive the quantity
negative. -/
def update_inventory (product_id : String) (quantity_change : Int)
    (db : DB) : Except Err Bool × DB :=
  if product_id = "" then (.error .valueError, db)
  else
    let current_quantity := (lookupA product_id db.inventory).getD 0
    let new_quantity := current_quantity + quantity_change
    if new_quantity < 0 then (.error .runtimeError, db)
    else (.ok true, { db with inventory := setA product_id new_quantity db.inventory })

/-- The data handed to `save_order`.  The required-field presence check of
the source is enforced by this record type; the remaining validations are
modelled explicitly. -/
structure OrderData where
  user_id : String
  products : List OrderItem
  total_amount : Rat
  payment_status : String
  payment_transaction_id : Option String := none
  deriving Repr

/-- `save_order`: validates the payload, then stores the record under the
freshly drawn `order_id` (the `uuid4` draw is the explicit `order_id`
argument) with metadata `status = 'pending'`. -/
def save_order (order_data : OrderData) (order_id : String) (db : DB) :
    Except Err String × DB :=
  if order_data.products = [] then (.error .valueError, db)
  else if order_data.total_amount ≤ 0 then (.error .valueError, db)
  else
    let order_record : OrderRec :=
      { user_id := order_data.user_id
        products := order_data.products
        total_amount := order_data.total_amount
        payment_status := order_data.payment_status
        payment_transaction_id := order_data.payment_transaction_id
        status := "pending" }
    (.ok order_id, { db with orders := setA order_id order_record db.orders })

/-- The `valid_statuses` list of `update_order_status`. -/
def valid_statuses : List String :=
  ["pending", "processing", "shipped", "delivered", "cancelled"]

/-- `update_order_status`: rejects a status outside `valid_statuses` with
`ValueError` before any lookup; `ValueError` when the order is missing;
otherwise overwrites the order's `status`. -/
def update_order_status (order_id status : String) (db : DB) :
    Except Err Bool × DB :=
  if ¬ (status ∈ valid_statuses) then (.error .valueError, db)
  else
    match lookupA order_id db.orders with
    | none => (.error .valueError, db)
    | some o =>
        (.ok true, { db with orders := setA order_id { o with status := status } db.orders })

/-! ## services/inventory_service.py -/

/-- Sum of the quantities of the active reservations for one product
(the comprehension inside `_get_available_stock`). -/
def activeReservedQty (product_id : String)
    (l : List (String × Reservation)) : Int :=
  (l.map (fun p =>
    if p.2.productId = product_id ∧ p.2.status = .active then p.2.quantity
    else 0)).sum

/-- `_get_available_stock`: `0` for an unknown product, otherwise the
hard-coded simulation total of `100` units minus the active reservations,
clamped at `0` by `max`. -/
def get_available_stock (product_id : String) (s : SysState) :
    Except Err Int :=
  match get_product_by_id product_id s.db with
  | .error e => .error e
  | .ok none => .ok 0
  | .ok (some _) =>
      .ok (max 0 (100 - activeReservedQty product_id s.reservations))

/-- `check_stock_availability`: read-only
`(available_stock ≥ quantity, available_stock)`. -/
def check_stock_availability (product_id : String) (quantity : Int)
    (s : SysState) : Except Err (Bool × Int) :=
  match get_available_stock product_id s with
  | .error e => .error e
  | .ok available_stock => .ok (decide (quantity ≤ available_stock), available_stock)

/-- `reserve_stock`: parameter validation, product lookup, availability
check, then — inside the reservation lock — insertion of an `active`
reservation followed by the inventory decrement.  The `uuid4` draw is the
explicit `reservation_id` argument; the scheduled expiry task is modelled
as the separate `expire_reservation` step.  As in the source, the
reservation is inserted before `update_inventory` runs, so an inventory
failure leaves the new reservation behind. -/
def reserve_stock (product_id : String) (quantity : Int) (order_id : String)
    (reservation_id : String) (s : SysState) : Except Err String × SysState :=
  if product_id = "" then (.error .valueError, s)
  else if quantity ≤ 0 then (.error .valueError, s)
  else if quantity > 1000 then (.error .valueError, s)
  else
    match get_product_by_id product_id s.db with
    | .error e => (.error e, s)
    | .ok none => (.error .invalidProduct, s)
    | .ok (some _) =>
        match get_available_stock product_id s with
        | .error e => (.error e, s)
        | .ok available_stock =>
            if available_stock < quantity then (.error .insufficientStock, s)
            else
              let r : Reservation :=
                { productId := product_id, quantity := quantity,
                  orderId := order_id, status := .active }
              let s1 : SysState :=
                { s with reservations := setA reservation_id r s.reservations }
              match update_inventory product_id (-quantity) s1.db with
              | (.error e, db2) => (.error e, { s1 with db := db2 })
              | (.ok _, db2) => (.ok reservation_id, { s1 with db := db2 })

/-- `confirm_reservation`: `InventoryError` when missing or not `active`,
otherwise marks the reservation `confirmed`. -/
def confirm_reservation (reservation_id : String) (s : SysState) :
    Except Err Bool × SysState :=
  match lookupA reservation_id s.reservations with
  | none => (.error .inventoryError, s)
  | some r =>
      if r.status ≠ .active then (.error .inventoryError, s)
      else
        let res' := setA reservation_id ({ r with status := .confirmed }) s.reservations
        (.ok true, { s with reservations := res' })

/-- `release_stock` with its Python-truthiness argument dispatch: release by
reservation id (missing or non-active ids return `False` with no state
change; active ones restore stock then flip the status to `released`),
manual release by product id and quantity, or `ValueError` when neither
combination is supplied. -/
def release_stock (reservation_id : Option String)
    (product_id : Option String) (quantity : Option Int) (s : SysState) :
    Except Err Bool × SysState :=
  if truthyS reservation_id then
    let rid := reservation_id.getD ""
    match lookupA rid s.reservations with
    | none => (.ok false, s)
    | some r =>
        if r.status ≠ .active then (.ok false, s)
        else
          match update_inventory r.productId r.quantity s.db with
          | (.error e, db2) => (.error e, { s with db := db2 })
          | (.ok _, db2) =>
              let res' := setA rid ({ r with status := .released }) s.reservations
              (.ok true, { db := db2, reservations := res' })
  else if truthyS product_id && truthyI quantity then
    match update_inventory (product_id.getD "") (quantity.getD 0) s.db with
    | (.error e, db2) => (.error e, { s with db := db2 })
    | (.ok _, db2) => (.ok true, { s with db := db2 })
  else (.error .valueError, s)

/-- The body of `_expire_reservation_after_timeout` once the timeout has
elapsed: release the reservation if it is still `active`. -/
def expire_reservation (reservation_id : String) (s : SysState) : SysState :=
  match lookupA reservation_id s.reservations with
  | none => s
  | some r =>
      if r.status = .active then
        (release_stock (some reservation_id) none none s).2
      else s

/-! ## services/payment_processor.py -/

/-- `MAX_PAYMENT_RETRIES` from `config/settings.py` (default `3`). -/
def MAX_PAYMENT_RETRIES : Nat := 3

/-- The classified outcomes of one `_call_payment_gateway` call: the
`status` field of the response dict, or the `asyncio.TimeoutError` the call
can raise. -/
inductive GatewayResp where
  | success
  | insufficientFundsResp
  | invalidCardResp
  | errorResp (error_code : String)
  | timeoutResp
  deriving DecidableEq, Repr

/-- The `retryable_codes` list of `_is_retryable_error`. -/
def retryable_codes : List String :=
  ["gateway_timeout", "service_unavailable", "rate_limit_exceeded",
   "network_error"]

/-- ASCII lowering of one character (`str.lower()`, restricted to the
ASCII range the error codes use). -/
def lowerChar (c : Char) : Char :=
  if 'A' ≤ c ∧ c ≤ 'Z' then Char.ofNat (c.toNat + 32) else c

/-- `str.lower()` on an error-code string. -/
def pyLower (s : String) : String := String.mk (s.data.map lowerChar)

/-- `_is_retryable_error` on the response's `error_code`. -/
def is_retryable_error (error_code : String) : Bool :=
  retryable_codes.contains (pyLower error_code)

/-- The success dict returned by `process_payment`
(`status = 'completed'`). -/
structure PayResult where
  status : String
  transaction_id : String
  amount : Rat
  deriving DecidableEq, Repr

/-- One `log_payment_attempt` record: the transaction id generated at the
top of the call and `attempt_number = retry_count + 1`. -/
structure PayAttemptLog where
  txnId : String
  attemptNumber : Nat
  deriving DecidableEq, Repr

/-- The observable trace of one `process_payment` invocation: its result,
the `log_payment_attempt` records of every attempt, and the
`asyncio.sleep` backoff delays (in seconds) taken between attempts. -/
structure PayRun where
  result : Except Err PayResult
  attempts : List PayAttemptLog
  sleeps : List Nat
  deriving DecidableEq, Repr

/-- The body of `process_payment`, with structural recursion on `fuel`, a
strict upper bound on the number of retries still possible.  The branch
conditions are exactly the source's (`retry_count < MAX_PAYMENT_RETRIES`
decides whether to retry); the `fuel = 0` case of a retry branch is
unreachable whenever `fuel > MAX_PAYMENT_RETRIES - retry_count`, which the
`process_payment` wrapper guarantees, because every retry increments
`retry_count` toward the bound. -/
def process_payment_go (amount : Rat) (card_data : List (String × String))
    (gw : Nat → GatewayResp) (txnGen : Nat → String) :
    Nat → Nat → PayRun
  | fuel, retry_count =>
  if amount ≤ 0 then { result := .error .valueError, attempts := [], sleeps := [] }
  else if amount > 10000 then
    { result := .error .valueError, attempts := [], sleeps := [] }
  else if (["card_number", "expiry_month", "expiry_year", "cvv"].filter
      (fun f => (lookupA f card_data).isNone)) ≠ [] then
    { result := .error .invalidCard, attempts := [], sleeps := [] }
  else
    let transaction_id := txnGen retry_count
    let attempt : PayAttemptLog :=
      { txnId := transaction_id, attemptNumber := retry_count + 1 }
    match gw retry_count with
    | .success =>
        { result := .ok { status := "completed",
                          transaction_id := transaction_id, amount := amount }
          attempts := [attempt], sleeps := [] }
    | .insufficientFundsResp =>
        { result := .error .insufficientFunds, attempts := [attempt], sleeps := [] }
    | .invalidCardResp =>
        { result := .error .invalidCard, attempts := [attempt], sleeps := [] }
    | .errorResp error_code =>
        if is_retryable_error error_code ∧ retry_count < MAX_PAYMENT_RETRIES then
          match fuel with
          | 0 =>
              { result := .error .paymentGateway, attempts := [attempt],
                sleeps := [] }
          | fuel' + 1 =>
              let rest := process_payment_go amount card_data gw txnGen
                fuel' (retry_count + 1)
              { result := rest.result, attempts := attempt :: rest.attempts,
                sleeps := 2 ^ retry_count :: rest.sleeps }
        else
          { result := .error .paymentGateway, attempts := [attempt], sleeps := [] }
    | .timeoutResp =>
        if retry_count < MAX_PAYMENT_RETRIES then
          match fuel with
          | 0 =>
              { result := .error .paymentGateway, attempts := [attempt],
                sleeps := [] }
          | fuel' + 1 =>
              let rest := process_payment_go amount card_data gw txnGen
                fuel' (retry_count + 1)
              { result := rest.result, attempts := attempt :: rest.attempts,
                sleeps := 2 ^ retry_count :: rest.sleeps }
        else
          { result := .error .paymentGateway, attempts := [attempt], sleeps := [] }

/-- `process_payment`: amount and card-field validation, then one gateway
call classified exactly as in the source; retryable errors and timeouts
with `retry_count < MAX_PAYMENT_RETRIES` sleep `2 ^ retry_count` seconds
and recurse with `retry_count + 1`.  The gateway is the external
collaborator `gw` (indexed by `retry_count`), and the per-call
`uuid4`-fresh transaction id is drawn from the stream `txnGen`: as in the
source, a fresh id is generated at the top of every (recursive) call. -/
def process_payment (amount : Rat) (card_data : List (String × String))
    (gw : Nat → GatewayResp) (txnGen : Nat → String) (retry_count : Nat) :
    PayRun :=
  process_payment_go amount card_data gw txnGen (MAX_PAYMENT_RETRIES + 1)
    retry_count

/-! ## api/checkout.py -/

/-- One entry of the request's `items` list; the `product_id` and
`quantity` keys checked by `_validate_checkout_request` are made present by
the record type. -/
structure Item where
  product_id : String
  quantity : Int
  deriving DecidableEq, Repr

/-- An address dict. -/
abbrev Addr := List (String × String)

/-- `CheckoutRequest`; a missing `billing_address` defaults to the shipping
address in the source constructor, so it is stored already defaulted. -/
structure CheckoutRequest where
  user_id : String
  items : List Item
  shipping_address : Addr
  payment_details : List (String × String)
  email : String
  billing_address : Addr
  deriving Repr

/-- `CheckoutResponse` (the estimated-delivery date is omitted: it is a
wall-clock string no claim mentions). -/
structure CheckoutResponse where
  order_id : String
  status : String
  total_amount : Rat
  payment_transaction_id : Option String
  deriving DecidableEq, Repr

/-- The external collaborators of `process_checkout`: the pure validators
of `utils/validator.py`, the payment gateway and the `uuid4` streams for
payment-transaction and reservation ids, and the best-effort email
outcome. -/
structure CheckoutEnv where
  validate_email : String → Bool × Option String
  validate_address : Addr → Bool × Option String
  validate_credit_card : String → Bool × Option String
  gateway : Nat → GatewayResp
  txnGen : Nat → String
  ridGen : Nat → String
  emailOk : Bool := true

/-- `TAX_RATE` from `config/settings.py` (default `0.08`). -/
def TAX_RATE : Rat := 8 / 100

/-- `MAX_ORDER_AMOUNT` from `config/settings.py` (default `10000.00`). -/
def MAX_ORDER_AMOUNT : Rat := 10000

/-- `MIN_ORDER_AMOUNT` from `config/settings.py` (default `1.00`). -/
def MIN_ORDER_AMOUNT : Rat := 1

/-- `_validate_checkout_request`: email, shipping address, billing address
(only when it differs from shipping), card number, non-empty items, and
positive quantities, in source order. -/
def validate_checkout_request (env : CheckoutEnv) (req : CheckoutRequest) :
    Except Err Unit :=
  if ¬ (env.validate_email req.email).1 then .error .validationError
  else if ¬ (env.validate_address req.shipping_address).1 then
    .error .validationError
  else if req.billing_address ≠ req.shipping_address ∧
      ¬ (env.validate_address req.billing_address).1 then
    .error .validationError
  else if ¬ (env.validate_credit_card
      ((lookupA "card_number" req.payment_details).getD "")).1 then
    .error .validationError
  else if req.items = [] then .error .validationError
  else if ¬ (req.items.all (fun it => 0 < it.quantity)) then
    .error .validationError
  else .ok ()

/-- `OrderItem.__init__` from `models/order.py`: validates the quantity and
unit price and snapshots `total_price = quantity * unit_price`. -/
def mkOrderItem (product_id product_name : String) (quantity : Int)
    (unit_price : Rat) : Except Err OrderItem :=
  if quantity ≤ 0 then .error .valueError
  else if unit_price < 0 then .error .valueError
  else
    .ok { product_id := product_id, product_name := product_name,
          quantity := quantity, unit_price := unit_price,
          total_price := (quantity : Rat) * unit_price }

/-- The loop body of `_validate_and_reserve_products`, with the
accumulating `order_items` and `reservations` lists and the index into the
reservation-id `uuid4` stream. -/
def validate_and_reserve_loop (items : List Item) (transaction_id : String)
    (ridGen : Nat → String) (idx : Nat) (order_items : List OrderItem)
    (reservations : List String) (s : SysState) :
    Except Err (List OrderItem × List String) × SysState :=
  match items with
  | [] => (.ok (order_items, reservations), s)
  | item :: rest =>
      match get_product_by_id item.product_id s.db with
      | .error e => (.error e, s)
      | .ok none => (.error .validationError, s)
      | .ok (some product) =>
          if ¬ product.is_active then (.error .validationError, s)
          else
            match check_stock_availability item.product_id item.quantity s with
            | .error e => (.error e, s)
            | .ok (is_available, _) =>
                if ¬ is_available then (.error .insufficientStock, s)
                else
                  match reserve_stock item.product_id item.quantity
                      transaction_id (ridGen idx) s with
                  | (.error e, s1) => (.error e, s1)
                  | (.ok rid, s1) =>
                      match mkOrderItem item.product_id product.name
                          item.quantity product.price with
                      | .error e => (.error e, s1)
                      | .ok oi =>
                          validate_and_reserve_loop rest transaction_id ridGen
                            (idx + 1) (order_items ++ [oi])
                            (reservations ++ [rid]) s1

/-- `_validate_and_reserve_products`. -/
def validate_and_reserve_products (items : List Item)
    (transaction_id : String) (ridGen : Nat → String) (s : SysState) :
    Except Err (List OrderItem × List String) × SysState :=
  validate_and_reserve_loop items transaction_id ridGen 0 [] [] s

/-- `_create_order`: builds the order payload (with
`payment_status = 'completed'`) and calls `save_order`. -/
def create_order (user_id : String) (items : List OrderItem)
    (total_amount : Rat) (payment_transaction_id : String)
    (order_id : String) (db : DB) : Except Err String × DB :=
  save_order
    { user_id := user_id, products := items, total_amount := total_amount,
      payment_status := "completed",
      payment_transaction_id := some payment_transaction_id } order_id db

/-- `_release_all_reservations`: releases each reservation in list order,
swallowing any exception a single release raises and continuing. -/
def release_all_reservations (reservations : List String) (s : SysState) :
    SysState :=
  match reservations with
  | [] => s
  | rid :: rest =>
      release_all_reservations rest (release_stock (some rid) none none s).2

/-- Step 7 of `process_checkout`: `confirm_reservation` for each id;
any exception propagates. -/
def confirm_reservations_loop (reservations : List String) (s : SysState) :
    Except Err Unit × SysState :=
  match reservations with
  | [] => (.ok (), s)
  | rid :: rest =>
      match confirm_reservation rid s with
      | (.error e, s1) => (.error e, s1)
      | (.ok _, s1) => confirm_reservations_loop rest s1

/-- Membership in the first `except` clause of `process_checkout`:
`(ValidationError, InsufficientStockError)`. -/
def isValidationOrStockErr : Err → Bool
  | .validationError => true
  | .insufficientStock => true
  | _ => false

/-- Membership in the second `except` clause:
`(PaymentError, InsufficientFundsError, InvalidCardError)`, where
`PaymentGatewayError` is a `PaymentError` subclass. -/
def isPaymentErr : Err → Bool
  | .paymentError => true
  | .insufficientFunds => true
  | .invalidCard => true
  | .paymentGateway => true
  | _ => false

/-- The `except` clauses of `process_checkout`: every handler first runs
`_release_all_reservations` on the ids visible in the caller's
`reservations` variable; the first two re-raise the original exception,
the catch-all wraps it into `CheckoutProcessingError`. -/
def checkout_except (e : Err) (reservations : List String) (s : SysState) :
    Except Err CheckoutResponse × SysState :=
  let s' := release_all_reservations reservations s
  if isValidationOrStockErr e || isPaymentErr e then (.error e, s')
  else (.error .checkoutProcessing, s')

/-- Subtotal (step 4): sum of the order items' `total_price`. -/
def subtotalOf (items : List OrderItem) : Rat :=
  (items.map (fun it => it.total_price)).sum

/-- `process_checkout`.  `transaction_id` is the `checkout_...uuid4` drawn
at the top of the function and `order_uuid` the `uuid4` draw `save_order`
will use.  The local variable `reservations` is initialised to `[]` and
only assigned when `_validate_and_reserve_products` returns normally, so a
handler reached from inside that call sees the empty list. -/
def process_checkout (env : CheckoutEnv) (req : CheckoutRequest)
    (transaction_id order_uuid : String) (s : SysState) :
    Except Err CheckoutResponse × SysState :=
  match validate_checkout_request env req with
  | .error e => checkout_except e [] s
  | .ok _ =>
    match get_user_by_id req.user_id s.db with
    | .error e => checkout_except e [] s
    | .ok none => checkout_except .validationError [] s
    | .ok (some user) =>
      if ¬ user.is_active then checkout_except .validationError [] s
      else
        match validate_and_reserve_products req.items transaction_id
            env.ridGen s with
        | (.error e, s1) => checkout_except e [] s1
        | (.ok (order_items, reservations), s1) =>
            let subtotal := subtotalOf order_items
            let tax_amount := subtotal * TAX_RATE
            let total_amount := subtotal + tax_amount
            if total_amount < MIN_ORDER_AMOUNT then
              checkout_except .validationError reservations s1
            else if total_amount > MAX_ORDER_AMOUNT then
              checkout_except .validationError reservations s1
            else
              let run := process_payment total_amount req.payment_details
                env.gateway env.txnGen 0
              match run.result with
              | .error e => checkout_except e reservations s1
              | .ok payment_result =>
                  if payment_result.status ≠ "completed" then
                    checkout_except .paymentError reservations s1
                  else
                    match create_order req.user_id order_items total_amount
                        payment_result.transaction_id order_uuid s1.db with
                    | (.error e, db2) =>
                        checkout_except e reservations ({ s1 with db := db2 })
                    | (.ok order_id, db2) =>
                        match confirm_reservations_loop reservations
                            ({ s1 with db := db2 }) with
                        | (.error e, s3) => checkout_except e reservations s3
                        | (.ok _, s3) =>
                            (.ok { order_id := order_id, status := "success",
                                   total_amount := total_amount,
                                   payment_transaction_id :=
                                     some payment_result.transaction_id }, s3)

/-- Status of the reservation stored under an id, if any. -/
def resStatus (reservation_id : String) (s : SysState) : Option RStatus :=
  (lookupA reservation_id s.reservations).map (fun r => r.status)

/-! ## Concrete fixtures used by the claim theorems and witnesses -/

/-- Collaborator environment whose validators accept, whose gateway always
succeeds, and whose `uuid4` streams are distinct literal ids. -/
def envOK : CheckoutEnv :=
  { validate_email := fun _ => (true, none)
    validate_address := fun _ => (true, none)
    validate_credit_card := fun _ => (true, none)
    gateway := fun _ => .success
    txnGen := fun n => "txn_" ++ Nat.repr n
    ridGen := fun n => "res_" ++ Nat.repr n }

/-- A card dict with all required fields. -/
def cardOK : List (String × String) :=
  [("card_number", "4532015112830366"), ("expiry_month", "12"),
   ("expiry_year", "2030"), ("cvv", "123")]

/-- A shipping address dict. -/
def addrOK : Addr :=
  [("street", "123 Main St"), ("city", "Springfield"), ("state", "IL"),
   ("zip_code", "62701"), ("country", "US")]

/-- Database with one active user, products A ($20) and B ($50), and
inventory rows A = 10, B = 1 (the end-to-end scenario of the spec). -/
def dbAB : DB :=
  { users := [("user_1", { email := "jane@example.com" })]
    products := [("prod_A", { name := "Widget A", price := 20 }),
                 ("prod_B", { name := "Widget B", price := 50 })]
    orders := []
    inventory := [("prod_A", 10), ("prod_B", 1)] }

/-- Fresh system state over `dbAB` with no reservations. -/
def sOK : SysState := { db := dbAB, reservations := [] }

/-- Checkout request for 2 × A and 1 × B. -/
def reqAB : CheckoutRequest :=
  { user_id := "user_1"
    items := [{ product_id := "prod_A", quantity := 2 },
              { product_id := "prod_B", quantity := 1 }]
    shipping_address := addrOK
    payment_details := cardOK
    email := "jane@example.com"
    billing_address := addrOK }

/-- State in which product B is fully reserved by another order, so the
availability check for B fails while A is freely reservable. -/
def sC1 : SysState :=
  { db := dbAB
    reservations :=
      [("res_pre", { productId := "prod_B", quantity := 100,
                     orderId := "order_other", status := .active })] }

/-- Environment whose gateway declines every charge with
`insufficient_funds`. -/
def envNoFunds : CheckoutEnv :=
  { envOK with gateway := fun _ => .insufficientFundsResp }

/-- State with a single active reservation, for the release-twice
scenario. -/
def sC7 : SysState :=
  { db := dbAB
    reservations :=
      [("res_a", { productId := "prod_A", quantity := 2,
                   orderId := "order_x", status := .active })] }

/-- Reservation-id `uuid4` stream for the C4 scenario (two distinct
non-empty ids). -/
def ridGenC4 : Nat → String := fun n => if n = 0 then "res_0" else "res_1"

/-- Environment whose gateway declines every charge with
`insufficient_funds` and whose reservation ids come from `ridGenC4`. -/
def envC4 : CheckoutEnv :=
  { envOK with gateway := fun _ => .insufficientFundsResp,
               ridGen := ridGenC4 }

/-- The order items built by the reserve phase for `reqAB`. -/
def oitemsC4 : List OrderItem :=
  [{ product_id := "prod_A", product_name := "Widget A", quantity := 2,
     unit_price := 20, total_price := 40 },
   { product_id := "prod_B", product_name := "Widget B", quantity := 1,
     unit_price := 50, total_price := 50 }]

/-- The state after the reserve phase of `reqAB` on `sOK`: both items
reserved and active, inventory decremented. -/
def s1C4 : SysState :=
  { db := { users := [("user_1", { email := "jane@example.com" })],
            products := [("prod_A", { name := "Widget A", price := 20 }),
                         ("prod_B", { name := "Widget B", price := 50 })],
            orders := [],
            inventory := [("prod_A", 8), ("prod_B", 0)] },
    reservations :=
      [("res_0", { productId := "prod_A", quantity := 2,
                   orderId := "checkout_0", status := .active }),
       ("res_1", { productId := "prod_B", quantity := 1,
                   orderId := "checkout_0", status := .active })] }

/-- Representation invariant of the running system: every stored
reservation has a positive quantity and a non-empty product id (both are
validated by `reserve_stock`, the only creator of reservations), and every
stored inventory quantity is nonnegative (enforced by
`update_inventory`). -/
def WFState (s : SysState) : Prop :=
  (∀ p ∈ s.reservations, 0 < p.2.quantity ∧ p.2.productId ≠ "") ∧
  (∀ p ∈ s.db.inventory, 0 ≤ p.2)

/-- The order total computed in step 4 of `process_checkout`:
`subtotal + subtotal * TAX_RATE`. -/
def checkoutTotal (items : List OrderItem) : Rat :=
  subtotalOf items + subtotalOf items * TAX_RATE

/-- A gateway mock whose every response is a transient (retryable)
failure: a timeout or an error with a retryable code. -/
def alwaysTransient (gw : Nat → GatewayResp) : Prop :=
  ∀ n, gw n = .timeoutResp ∨
    ∃ code, gw n = .errorResp code ∧ is_retryable_error code = true

/-- The contribution of one reservation to a product's active reserved
quantity (the summand of `_get_available_stock`). -/
def resContrib (product_id : String) (r : Reservation) : Int :=
  if r.productId = product_id ∧ r.status = .active then r.quantity else 0

/-- One atomic operation on the inventory ledger.  Every mutation of the
reservation table in `services/inventory_service.py` runs inside
`_reservation_lock`, so a concurrent history of the service — including
the expiry tasks, which are just deferred `release` callers — is an
interleaving of these steps.  The `dbWrite` step covers all remaining
code, which may mutate the database arbitrarily but never touches the
reservation table. -/
inductive LedgerStep : SysState → SysState → Prop where
  | reserve (product_id : String) (quantity : Int)
      (order_id reservation_id : String) (s : SysState) :
      LedgerStep s
        (reserve_stock product_id quantity order_id reservation_id s).2
  | confirm (reservation_id : String) (s : SysState) :
      LedgerStep s (confirm_reservation reservation_id s).2
  | release (reservation_id product_id : Option String)
      (quantity : Option Int) (s : SysState) :
      LedgerStep s (release_stock reservation_id product_id quantity s).2
  | expire (reservation_id : String) (s : SysState) :
      LedgerStep s (expire_reservation reservation_id s)
  | dbWrite (db' : DB) (s : SysState) :
      LedgerStep s { s with db := db' }

/-- Inductive invariant of the reservation table: dict-unique keys,
positive quantities, and — for every product — active reservations
summing to at most the simulated total stock of 100 units. -/
def LedgerInv (s : SysState) : Prop :=
  ((s.reservations.map Prod.fst).Nodup) ∧
  (∀ p ∈ s.reservations, 0 < p.2.quantity) ∧
  (∀ product_id : String,
    activeReservedQty product_id s.reservations ≤ 100)

/-! ## Association-list lemmas -/

theorem lookupA_mem {β : Type} {l : List (String × β)} {k : String} {v : β}
    (h : lookupA k l = some v) : (k, v) ∈ l := by
  induction l with
  | nil => simp [lookupA] at h
  | cons p t ih =>
      obtain ⟨a, b⟩ := p
      by_cases hk : a = k
      · rw [lookupA, if_pos hk] at h
        obtain rfl := Option.some.inj h
        subst hk
        exact List.mem_cons_self _ _
      · rw [lookupA, if_neg hk] at h
        exact List.mem_cons_of_mem _ (ih h)

theorem lookupA_eq_none_of_any_false {β : Type} {l : List (String × β)}
    {k : String} (h : l.any (fun p => p.1 = k) = false) :
    lookupA k l = none := by
  induction l with
  | nil => rfl
  | cons p t ih =>
      simp only [List.any_cons, Bool.or_eq_false_iff, decide_eq_false_iff_not] at h
      rw [lookupA, if_neg h.1]
      exact ih (by simpa using h.2)

theorem lookupA_append_right {β : Type} {l1 : List (String × β)} {k : String}
    (h : lookupA k l1 = none) (l2 : List (String × β)) :
    lookupA k (l1 ++ l2) = lookupA k l2 := by
  induction l1 with
  | nil => rfl
  | cons p t ih =>
      rw [lookupA] at h
      by_cases hk : p.1 = k
      · rw [if_pos hk] at h; exact absurd h (by simp)
      · rw [if_neg hk] at h
        rw [List.cons_append, lookupA, if_neg hk]
        exact ih h

theorem any_key_false_of_lookupA_none {β : Type} {l : List (String × β)}
    {k : String} (h : lookupA k l = none) :
    l.any (fun p => p.1 = k) = false := by
  induction l with
  | nil => rfl
  | cons p t ih =>
      rw [lookupA] at h
      by_cases hk : p.1 = k
      · rw [if_pos hk] at h; exact Option.noConfusion h
      · rw [if_neg hk] at h
        simp only [List.any_cons, Bool.or_eq_false_iff,
          decide_eq_false_iff_not]
        exact ⟨hk, by simpa using ih h⟩

theorem setA_append_of_lookupA_none {β : Type} {l : List (String × β)}
    {k : String} (h : lookupA k l = none) (v : β) :
    setA k v l = l ++ [(k, v)] := by
  unfold setA
  rw [if_neg (by simp [any_key_false_of_lookupA_none h])]

theorem mem_setA {β : Type} {p : String × β} {k : String} {v : β}
    {l : List (String × β)} (h : p ∈ setA k v l) : p = (k, v) ∨ p ∈ l := by
  unfold setA at h
  split at h
  · obtain ⟨q, hq, hfq⟩ := List.mem_map.mp h
    by_cases hqk : q.1 = k
    · rw [if_pos hqk] at hfq; exact .inl hfq.symm
    · rw [if_neg hqk] at hfq; exact .inr (hfq ▸ hq)
  · rcases List.mem_append.mp h with h1 | h1
    · exact .inr h1
    · exact .inl (List.mem_singleton.mp h1)

theorem lookupA_map_replace_ne {β : Type} {k k' : String} (hne : k' ≠ k)
    (v : β) (l : List (String × β)) :
    lookupA k' (l.map (fun p => if p.1 = k then (k, v) else p)) =
      lookupA k' l := by
  induction l with
  | nil => rfl
  | cons p t ih =>
      by_cases hp : p.1 = k
      · rw [List.map_cons, if_pos hp, lookupA, lookupA,
          if_neg (fun h => hne ((h : k = k').symm)),
          if_neg (fun h => hne ((hp.symm.trans h).symm))]
        exact ih
      · rw [List.map_cons, if_neg hp, lookupA, lookupA]
        by_cases hpk : p.1 = k'
        · rw [if_pos hpk, if_pos hpk]
        · rw [if_neg hpk, if_neg hpk]; exact ih

theorem lookupA_setA_self {β : Type} (k : String) (v : β)
    (l : List (String × β)) : lookupA k (setA k v l) = some v := by
  unfold setA
  split
  · rename_i hany
    induction l with
    | nil => simp at hany
    | cons p t ih =>
        simp only [List.any_cons, Bool.or_eq_true, decide_eq_true_eq] at hany
        by_cases hp : p.1 = k
        · rw [List.map_cons, if_pos hp, lookupA, if_pos rfl]
        · rw [List.map_cons, if_neg hp, lookupA, if_neg hp]
          exact ih (by simpa [hp] using hany)
  · rename_i hany
    rw [lookupA_append_right
      (lookupA_eq_none_of_any_false (Bool.of_not_eq_true hany)),
      lookupA, if_pos rfl]

theorem lookupA_append_single_ne {β : Type} {k k' : String} (hne : k' ≠ k)
    (v : β) (l : List (String × β)) :
    lookupA k' (l ++ [(k, v)]) = lookupA k' l := by
  induction l with
  | nil =>
      simp only [List.nil_append, lookupA]
      rw [if_neg (fun h => hne ((h : k = k').symm))]
  | cons p t ih =>
      rw [List.cons_append, lookupA, lookupA]
      by_cases hp : p.1 = k'
      · rw [if_pos hp, if_pos hp]
      · rw [if_neg hp, if_neg hp]; exact ih

theorem lookupA_setA_ne {β : Type} {k k' : String} (hne : k' ≠ k) (v : β)
    (l : List (String × β)) : lookupA k' (setA k v l) = lookupA k' l := by
  unfold setA
  split
  · exact lookupA_map_replace_ne hne v l
  · exact lookupA_append_single_ne hne v l

/-- Frame facts about a successful `update_inventory`: only the inventory
table changes, and nonnegativity of all stored quantities is preserved. -/
theorem update_inventory_ok_frame {product_id : String}
    {quantity_change : Int} {db : DB} {b : Bool} {db2 : DB}
    (h : update_inventory product_id quantity_change db = (.ok b, db2)) :
    db2.orders = db.orders ∧ db2.users = db.users ∧
    db2.products = db.products ∧
    ((∀ p ∈ db.inventory, 0 ≤ p.2) → ∀ p ∈ db2.inventory, 0 ≤ p.2) := by
  simp only [update_inventory] at h
  split at h
  · exact Except.noConfusion (congrArg Prod.fst h)
  · split at h
    · exact Except.noConfusion (congrArg Prod.fst h)
    · rename_i hneg
      have hdb := congrArg Prod.snd h
      simp only at hdb
      subst hdb
      refine ⟨rfl, rfl, rfl, fun hinv p hp => ?_⟩
      rcases mem_setA hp with rfl | hp2
      · simpa using Int.not_lt.mp hneg
      · exact hinv p hp2

/-- C8: the stored inventory quantity of a product never becomes negative:
`update_inventory` raises `RuntimeError` whenever the requested change
would make the quantity negative, and on that error the database —
inventory record included — is left unchanged; and a successful update
keeps every stored quantity nonnegative. -/
theorem C8_inventory_never_negative (product_id : String)
    (quantity_change : Int) (db : DB) (hpid : product_id ≠ "") :
    ((lookupA product_id db.inventory).getD 0 + quantity_change < 0 →
      update_inventory product_id quantity_change db =
        (.error .runtimeError, db)) ∧
    (∀ b db2, update_inventory product_id quantity_change db = (.ok b, db2) →
      (∀ p ∈ db.inventory, 0 ≤ p.2) → ∀ p ∈ db2.inventory, 0 ≤ p.2) := by
  constructor
  · intro hneg
    simp only [update_inventory]
    rw [if_neg hpid, if_pos hneg]
  · intro b db2 h hinv
    exact (update_inventory_ok_frame h).2.2.2 hinv

/-- Witness for C8 at a concrete input: inventory of product A is 10, so a
change of −20 raises and leaves the database untouched. -/
theorem C8_inventory_never_negative_witness :
    update_inventory "prod_A" (-20) dbAB = (.error .runtimeError, dbAB) :=
  (C8_inventory_never_negative "prod_A" (-20) dbAB (by decide)).1 (by decide)

/-- C9: `reserve_stock` validates its arguments before touching any state:
an empty product id, a nonpositive quantity, or a quantity above 1000
raises `ValueError` and returns the state unchanged — neither the
reservation table nor the inventory is modified.  (The embedding types
`product_id` as a string, so the source's non-string branch of the same
guard is outside the model.) -/
theorem C9_reserve_validates_first (product_id : String) (quantity : Int)
    (order_id reservation_id : String) (s : SysState)
    (h : product_id = "" ∨ quantity ≤ 0 ∨ 1000 < quantity) :
    reserve_stock product_id quantity order_id reservation_id s =
      (.error .valueError, s) := by
  rcases h with h | h | h
  · simp only [reserve_stock]
    rw [if_pos h]
  · by_cases hp : product_id = ""
    · simp only [reserve_stock]; rw [if_pos hp]
    · simp only [reserve_stock]; rw [if_neg hp, if_pos h]
  · by_cases hp : product_id = ""
    · simp only [reserve_stock]; rw [if_pos hp]
    · by_cases hq : quantity ≤ 0
      · simp only [reserve_stock]; rw [if_neg hp, if_pos hq]
      · simp only [reserve_stock]; rw [if_neg hp, if_neg hq, if_pos h]

/-- Witness for C9 at a concrete input: quantity 0 is rejected with no
state change. -/
theorem C9_reserve_validates_first_witness :
    reserve_stock "prod_A" 0 "order_1" "res_9" sOK =
      (.error .valueError, sOK) :=
  C9_reserve_validates_first "prod_A" 0 "order_1" "res_9" sOK
    (Or.inr (Or.inl (by decide)))

/-- Counterexample for C10 as stated: the empty string is a reservation id
that does not exist in the table, yet releasing by it raises `ValueError`
(Python truthiness sends it to the manual-release branch) instead of
returning `False`. -/
theorem C10_counterexample_empty_id_raises :
    lookupA "" sOK.reservations = none ∧
    release_stock (some "") none none sOK = (.error .valueError, sOK) := by
  constructor
  · rfl
  · rfl

/-- Releasing by a non-empty id that is absent or not `active` is a
`False`-returning no-op. -/
theorem release_stock_noop_of_not_active (reservation_id : String)
    (s : SysState) (hrid : reservation_id ≠ "")
    (h : ∀ r, lookupA reservation_id s.reservations = some r →
      r.status ≠ .active) :
    release_stock (some reservation_id) none none s = (.ok false, s) := by
  have ht : truthyS (some reservation_id) = true := by
    simp [truthyS, hrid]
  simp only [release_stock, ht, if_true, Option.getD_some]
  cases hl : lookupA reservation_id s.reservations with
  | none => rfl
  | some r =>
      dsimp only
      rw [if_pos (h r hl)]

/-- C10 amended: for every NON-EMPTY reservation id that is absent from
the reservation table or whose reservation is not `active`, `release_stock`
returns `False` without raising and leaves the whole state — inventory
quantities and every reservation's status — unchanged.  (The empty-string
id instead raises `ValueError`, per the counterexample.) -/
theorem C10_absent_or_inactive_release_noop (reservation_id : String)
    (s : SysState) (hrid : reservation_id ≠ "")
    (h : ∀ r, lookupA reservation_id s.reservations = some r →
      r.status ≠ .active) :
    release_stock (some reservation_id) none none s = (.ok false, s) :=
  release_stock_noop_of_not_active reservation_id s hrid h

/-- Witness for C10 at a concrete input: an id absent from the table. -/
theorem C10_absent_or_inactive_release_noop_witness :
    release_stock (some "res_missing") none none sOK = (.ok false, sOK) :=
  C10_absent_or_inactive_release_noop "res_missing" sOK (by decide)
    (fun r hr => by simp [lookupA] at hr)

/-- Counterexample for C7 as stated: the first release of an active
reservation returns `True`, the second returns `False` — the second call's
observable outcome differs from the first call's. -/
theorem C7_counterexample_outcomes_differ :
    (release_stock (some "res_a") none none sC7).1 = .ok true ∧
    (release_stock (some "res_a") none none
        (release_stock (some "res_a") none none sC7).2).1 = .ok false := by
  decide

/-- C7 amended: `release_stock` by reservation id is idempotent in state
and raises no error on repetition: whenever a first call returns normally
(with `True` after releasing an active reservation, or `False` as a no-op),
the second call on the resulting state is a no-op that returns `False` —
not an error — and leaves the state exactly as the first call left it, so
the ledger changes at most once. -/
theorem C7_release_idempotent (reservation_id : String) (s : SysState)
    (b : Bool) (s1 : SysState)
    (h : release_stock (some reservation_id) none none s = (.ok b, s1)) :
    release_stock (some reservation_id) none none s1 = (.ok false, s1) := by
  by_cases hrid : reservation_id = ""
  · subst hrid
    simp [release_stock, truthyS, truthyI] at h
  · have ht : truthyS (some reservation_id) = true := by
      simp [truthyS, hrid]
    simp only [release_stock, ht, if_true, Option.getD_some] at h ⊢
    cases hl : lookupA reservation_id s.reservations with
    | none =>
        rw [hl] at h
        dsimp only at h
        injection h with h1 h2
        subst h2
        rw [hl]
    | some r =>
        rw [hl] at h
        dsimp only at h
        by_cases hst : r.status ≠ .active
        · rw [if_pos hst] at h
          injection h with h1 h2
          subst h2
          rw [hl]
          dsimp only
          rw [if_pos hst]
        · rw [if_neg hst] at h
          rcases hui : update_inventory r.productId r.quantity s.db with ⟨res, db2⟩
          rw [hui] at h
          cases res with
          | error e =>
              dsimp only at h
              exact Except.noConfusion (congrArg Prod.fst h)
          | ok b2 =>
              dsimp only at h
              injection h with h1 h2
              subst h2
              rw [show lookupA reservation_id
                  (setA reservation_id
                    ({ r with status := RStatus.released }) s.reservations) =
                  some ({ r with status := RStatus.released })
                from lookupA_setA_self _ _ _]
              dsimp only
              rw [if_pos (by simp)]

/-- Witness for C7 at a concrete input: releasing the same id twice; the
second call is a `False`-returning no-op on the once-released state. -/
theorem C7_release_idempotent_witness :
    release_stock (some "res_a") none none
        (release_stock (some "res_a") none none sC7).2 =
      (.ok false, (release_stock (some "res_a") none none sC7).2) :=
  C7_release_idempotent "res_a" sC7 true
    (release_stock (some "res_a") none none sC7).2 (by decide)

/-- C1, exhibited against the code: in `sC1` product B is unavailable, so
checkout of [2 × A, 1 × B] reserves A and then fails on B; the claim says
A's reservation must then be released, but after the failed checkout A's
reservation `res_0` is still `active` and still holds 2 units — the
handler released nothing because the `reservations` variable of
`process_checkout` was never assigned the partial list. -/
theorem C1_partial_reservation_left_active :
    (process_checkout envOK reqAB "checkout_0" "order_0" sC1).1 =
      .error .insufficientStock ∧
    resStatus "res_0"
      (process_checkout envOK reqAB "checkout_0" "order_0" sC1).2 =
      some .active ∧
    activeReservedQty "prod_A"
      (process_checkout envOK reqAB "checkout_0" "order_0" sC1).2.reservations
      = 2 := by
  decide

/-- C3, exhibited against the code: with a gateway that fails transiently
once and then succeeds, the retry is logged as attempt 2 of the same
logical charge but carries a different transaction id than attempt 1,
because each recursive `process_payment` call draws a fresh
`uuid4` transaction id. -/
theorem C3_transaction_id_not_stable_across_retries :
    (process_payment 100 cardOK
        (fun n => if n = 0 then .errorResp "network_error" else .success)
        (fun n => "txn_" ++ Nat.repr n) 0).attempts =
      [{ txnId := "txn_0", attemptNumber := 1 },
       { txnId := "txn_1", attemptNumber := 2 }] ∧
    "txn_0" ≠ "txn_1" := by decide

/-- Counterexample for C2 as stated: after a fully successful checkout the
single stored order has status `'pending'`, and `update_order_status`
rejects `'completed'` with `ValueError` (it is not among its valid
statuses), leaving the database unchanged — so the order cannot be set to
`completed`. -/
theorem C2_counterexample_completed_not_settable :
    (process_checkout envOK reqAB "checkout_0" "order_0" sOK).2.db.orders.map
      (fun p => p.2.status) = ["pending"] ∧
    update_order_status "order_0" "completed"
        (process_checkout envOK reqAB "checkout_0" "order_0" sOK).2.db =
      (.error .valueError,
       (process_checkout envOK reqAB "checkout_0" "order_0" sOK).2.db) := by
  decide

/-- C2 amended: `save_order` stores the record under the freshly drawn
order id with initial status `'pending'` and leaves every other order
untouched; but `update_order_status` accepts only
pending/processing/shipped/delivered/cancelled, so `'completed'` is always
rejected with `ValueError`, and a fully successful checkout leaves its
single stored order with status `'pending'` (only the separate
`payment_status` field reads `'completed'`). -/
theorem C2_fresh_pending_order_completed_rejected (od : OrderData)
    (oid : String) (db : DB) (hfresh : lookupA oid db.orders = none)
    (hprod : od.products ≠ []) (hamt : 0 < od.total_amount) :
    (save_order od oid db).1 = .ok oid ∧
    (save_order od oid db).2.orders =
      db.orders ++
        [(oid, { user_id := od.user_id, products := od.products,
                 total_amount := od.total_amount,
                 payment_status := od.payment_status,
                 payment_transaction_id := od.payment_transaction_id,
                 status := "pending" })] ∧
    (lookupA oid (save_order od oid db).2.orders).map (fun o => o.status) =
      some "pending" ∧
    (∀ oid', oid' ≠ oid →
      lookupA oid' (save_order od oid db).2.orders =
        lookupA oid' db.orders) ∧
    (∀ db' oid', update_order_status oid' "completed" db' =
      (.error .valueError, db')) ∧
    (process_checkout envOK reqAB "checkout_0" "order_0" sOK).2.db.orders.map
      (fun p => p.2.status) = ["pending"] := by
  refine ⟨?_, ?_, ?_, ?_, ?_, by decide⟩
  · simp only [save_order]
    rw [if_neg hprod, if_neg (not_le.mpr hamt)]
  · simp only [save_order]
    rw [if_neg hprod, if_neg (not_le.mpr hamt)]
    dsimp only
    rw [setA_append_of_lookupA_none hfresh]
  · simp only [save_order]
    rw [if_neg hprod, if_neg (not_le.mpr hamt)]
    dsimp only
    rw [lookupA_setA_self]
    rfl
  · intro oid' hne
    simp only [save_order]
    rw [if_neg hprod, if_neg (not_le.mpr hamt)]
    dsimp only
    exact lookupA_setA_ne hne _ _
  · intro db' oid'
    simp only [update_order_status]
    rw [if_pos (by decide)]

/-- Witness for C2 at a concrete input: a one-item payload stored under a
fresh id. -/
theorem C2_fresh_pending_order_completed_rejected_witness :
    (save_order
        { user_id := "user_1",
          products := [{ product_id := "prod_A", product_name := "Widget A",
                         quantity := 1, unit_price := 20, total_price := 20 }],
          total_amount := 20, payment_status := "completed",
          payment_transaction_id := some "txn_9" } "order_9" dbAB).1 =
      .ok "order_9" :=
  (C2_fresh_pending_order_completed_rejected _ "order_9" dbAB (by decide)
    (by decide) (by decide)).1

/-! ## Compensation lemmas (C4) -/

theorem lookupA_getD_nonneg (k : String) {l : List (String × Int)}
    (h : ∀ p ∈ l, 0 ≤ p.2) : 0 ≤ (lookupA k l).getD 0 := by
  cases hl : lookupA k l with
  | none => simp
  | some v => simpa using h _ (lookupA_mem hl)

/-- A nonnegative inventory change on a nonempty product id always
succeeds and writes back the incremented quantity. -/
theorem update_inventory_pos_ok (product_id : String)
    (quantity_change : Int) (db : DB) (hpid : product_id ≠ "")
    (hinv : ∀ p ∈ db.inventory, 0 ≤ p.2) (hchg : 0 ≤ quantity_change) :
    update_inventory product_id quantity_change db =
      (.ok true,
       { db with
           inventory := setA product_id
             ((lookupA product_id db.inventory).getD 0 + quantity_change)
             db.inventory }) := by
  simp only [update_inventory]
  rw [if_neg hpid,
    if_neg (by
      have := lookupA_getD_nonneg product_id hinv
      omega)]

/-- What a successful `reserve_stock` does: it returns the fresh
reservation id, leaves the invariant intact, records the new reservation
as `active`, touches no other reservation, and does not touch the order
store. -/
theorem reserve_stock_ok_spec {product_id : String} {quantity : Int}
    {order_id reservation_id : String} {s : SysState} {rv : String}
    {s1 : SysState} (hwf : WFState s)
    (h : reserve_stock product_id quantity order_id reservation_id s =
      (.ok rv, s1)) :
    rv = reservation_id ∧ WFState s1 ∧
    resStatus reservation_id s1 = some .active ∧
    (∀ rid, rid ≠ reservation_id → resStatus rid s1 = resStatus rid s) ∧
    s1.db.orders = s.db.orders := by
  by_cases hpid : product_id = ""
  · simp only [reserve_stock, if_pos hpid] at h
    exact Except.noConfusion (congrArg Prod.fst h)
  by_cases hq : quantity ≤ 0
  · simp only [reserve_stock, if_neg hpid, if_pos hq] at h
    exact Except.noConfusion (congrArg Prod.fst h)
  by_cases hq2 : quantity > 1000
  · simp only [reserve_stock, if_neg hpid, if_neg hq, if_pos hq2] at h
    exact Except.noConfusion (congrArg Prod.fst h)
  simp only [reserve_stock, if_neg hpid, if_neg hq, if_neg hq2] at h
  split at h
  · exact Except.noConfusion (congrArg Prod.fst h)
  · exact Except.noConfusion (congrArg Prod.fst h)
  split at h
  · exact Except.noConfusion (congrArg Prod.fst h)
  split at h
  · exact Except.noConfusion (congrArg Prod.fst h)
  split at h
  · exact Except.noConfusion (congrArg Prod.fst h)
  rename_i hui
  injection h with h1 h2
  injection h1 with h1
  subst h1
  subst h2
  have hframe := update_inventory_ok_frame hui
  refine ⟨rfl, ⟨?_, ?_⟩, ?_, ?_, hframe.1⟩
  · intro p hp
    rcases mem_setA hp with rfl | hp2
    · refine ⟨?_, hpid⟩
      show (0 : Int) < quantity
      omega
    · exact hwf.1 p hp2
  · exact hframe.2.2.2 hwf.2
  · unfold resStatus
    rw [lookupA_setA_self]
    rfl
  · intro rid hne
    unfold resStatus
    rw [lookupA_setA_ne hne]

/-- What a release of an `active` reservation does: it returns `True`,
keeps the invariant, leaves the order store alone, flips the target to
`released`, and touches no other reservation. -/
theorem release_active_spec {rid : String} {s : SysState} {r : Reservation}
    (hwf : WFState s) (hrid : rid ≠ "")
    (hl : lookupA rid s.reservations = some r)
    (hst : r.status = .active) :
    (release_stock (some rid) none none s).1 = .ok true ∧
    WFState (release_stock (some rid) none none s).2 ∧
    (release_stock (some rid) none none s).2.db.orders = s.db.orders ∧
    resStatus rid (release_stock (some rid) none none s).2 =
      some .released ∧
    (∀ rid', rid' ≠ rid →
      resStatus rid' (release_stock (some rid) none none s).2 =
        resStatus rid' s) := by
  have ht : truthyS (some rid) = true := by simp [truthyS, hrid]
  obtain ⟨hq0, hpid0⟩ := hwf.1 _ (lookupA_mem hl)
  have hq : 0 < r.quantity := hq0
  have hpid : r.productId ≠ "" := hpid0
  have hui := update_inventory_pos_ok r.productId r.quantity s.db hpid
    hwf.2 (le_of_lt hq)
  simp only [release_stock, ht, if_true, Option.getD_some, hl]
  rw [if_neg (fun hc => hc hst), hui]
  dsimp only
  refine ⟨rfl, ⟨?_, ?_⟩, rfl, ?_, ?_⟩
  · intro p hp
    rcases mem_setA hp with rfl | hp2
    · exact ⟨hq, hpid⟩
    · exact hwf.1 p hp2
  · intro p hp
    rcases mem_setA hp with rfl | hp2
    · have := lookupA_getD_nonneg r.productId hwf.2
      simp only
      omega
    · exact hwf.2 p hp2
  · unfold resStatus
    rw [lookupA_setA_self]
    rfl
  · intro rid' hne
    unfold resStatus
    rw [lookupA_setA_ne hne]

/-- `_release_all_reservations` on ids that are all `active` or already
`released`: afterwards every one of them is `released`, already-released
reservations stay released, the invariant holds, and the order store is
untouched. -/
theorem release_all_reservations_spec :
    ∀ (rids : List String) (s : SysState), WFState s →
      (∀ rid ∈ rids, rid ≠ "" ∧
        (resStatus rid s = some .active ∨
         resStatus rid s = some .released)) →
      WFState (release_all_reservations rids s) ∧
      (release_all_reservations rids s).db.orders = s.db.orders ∧
      (∀ rid, resStatus rid s = some .released →
        resStatus rid (release_all_reservations rids s) =
          some .released) ∧
      (∀ rid ∈ rids,
        resStatus rid (release_all_reservations rids s) =
          some .released) := by
  intro rids
  induction rids with
  | nil =>
      intro s hwf _
      exact ⟨hwf, rfl, fun _ hr => hr, by simp⟩
  | cons rid rest ih =>
      intro s hwf h
      obtain ⟨hne, hstat⟩ := h rid (List.mem_cons_self _ _)
      simp only [release_all_reservations]
      rcases hstat with hact | hrel
      · obtain ⟨r, hl, hr⟩ : ∃ r, lookupA rid s.reservations = some r ∧
            r.status = .active := by
          unfold resStatus at hact
          cases hlk : lookupA rid s.reservations with
          | none => rw [hlk] at hact; simp at hact
          | some r0 =>
              rw [hlk] at hact
              exact ⟨r0, rfl, by simpa using hact⟩
        obtain ⟨h1, hwf', hord', hself', hother'⟩ :=
          release_active_spec hwf hne hl hr
        have hrest : ∀ rid' ∈ rest, rid' ≠ "" ∧
            (resStatus rid' (release_stock (some rid) none none s).2 =
              some .active ∨
             resStatus rid' (release_stock (some rid) none none s).2 =
              some .released) := by
          intro rid' hrid'
          obtain ⟨hne', hstat'⟩ := h rid' (List.mem_cons_of_mem _ hrid')
          refine ⟨hne', ?_⟩
          by_cases heq : rid' = rid
          · subst heq; exact Or.inr hself'
          · rw [hother' rid' heq]; exact hstat'
        obtain ⟨hwf1, hord1, hpres1, hall1⟩ :=
          ih (release_stock (some rid) none none s).2 hwf' hrest
        refine ⟨hwf1, hord1.trans hord', ?_, ?_⟩
        · intro rid0 hr0
          by_cases heq : rid0 = rid
          · subst heq
            exact absurd (hr0.symm.trans hact) (by simp)
          · exact hpres1 rid0 ((hother' rid0 heq).trans hr0)
        · intro rid0 hr0
          rcases List.mem_cons.mp hr0 with rfl | hmem
          · exact hpres1 rid0 hself'
          · exact hall1 rid0 hmem
      · have hnoop : release_stock (some rid) none none s =
            (.ok false, s) := by
          apply release_stock_noop_of_not_active rid s hne
          intro r0 hl0
          unfold resStatus at hrel
          rw [hl0] at hrel
          have h2 : r0.status = .released := by simpa using hrel
          rw [h2]
          decide
        rw [hnoop]
        have hrest : ∀ rid' ∈ rest, rid' ≠ "" ∧
            (resStatus rid' s = some .active ∨
             resStatus rid' s = some .released) :=
          fun rid' hrid' => h rid' (List.mem_cons_of_mem _ hrid')
        obtain ⟨hwf1, hord1, hpres1, hall1⟩ := ih s hwf hrest
        refine ⟨hwf1, hord1, hpres1, ?_⟩
        intro rid0 hr0
        rcases List.mem_cons.mp hr0 with rfl | hmem
        · exact hpres1 rid0 hrel
        · exact hall1 rid0 hmem

/-- The reservation loop of `_validate_and_reserve_products`, when it
returns normally: the invariant holds, every accumulated reservation id is
non-empty and `active` in the final state, and the order store is
untouched. -/
theorem validate_and_reserve_loop_spec (transaction_id : String)
    (ridGen : Nat → String) (hg : ∀ n, ridGen n ≠ "") :
    ∀ (items : List Item) (idx : Nat) (accI : List OrderItem)
      (accR : List String) (s : SysState) (oitems : List OrderItem)
      (rids : List String) (s1 : SysState),
      WFState s →
      (∀ rid ∈ accR, rid ≠ "" ∧ resStatus rid s = some .active) →
      validate_and_reserve_loop items transaction_id ridGen idx accI accR s
        = (.ok (oitems, rids), s1) →
      WFState s1 ∧
      (∀ rid ∈ rids, rid ≠ "" ∧ resStatus rid s1 = some .active) ∧
      s1.db.orders = s.db.orders := by
  intro items
  induction items with
  | nil =>
      intro idx accI accR s oitems rids s1 hwf hacc h
      simp only [validate_and_reserve_loop] at h
      injection h with h1 h2
      injection h1 with h1
      injection h1 with h1a h1b
      subst h1a
      subst h1b
      subst h2
      exact ⟨hwf, hacc, rfl⟩
  | cons item rest ih =>
      intro idx accI accR s oitems rids s1 hwf hacc h
      simp only [validate_and_reserve_loop] at h
      split at h
      · exact Except.noConfusion (congrArg Prod.fst h)
      · exact Except.noConfusion (congrArg Prod.fst h)
      · split at h
        · exact Except.noConfusion (congrArg Prod.fst h)
        · split at h
          · exact Except.noConfusion (congrArg Prod.fst h)
          · split at h
            · exact Except.noConfusion (congrArg Prod.fst h)
            · split at h
              · exact Except.noConfusion (congrArg Prod.fst h)
              · rename_i hrs
                split at h
                · exact Except.noConfusion (congrArg Prod.fst h)
                · rename_i product _ _ _ _ rid0 s' _ oi hoi
                  obtain ⟨hrv, hwf', hact', hother', hord'⟩ :=
                    reserve_stock_ok_spec hwf hrs
                  subst hrv
                  have hacc' : ∀ rid ∈ accR ++ [ridGen idx], rid ≠ "" ∧
                      resStatus rid s' = some .active := by
                    intro rid hrid
                    rcases List.mem_append.mp hrid with hmem | hmem
                    · obtain ⟨hne, hst⟩ := hacc rid hmem
                      refine ⟨hne, ?_⟩
                      by_cases heq : rid = ridGen idx
                      · subst heq; exact hact'
                      · rw [hother' rid heq]; exact hst
                    · rw [List.mem_singleton.mp hmem]
                      exact ⟨hg idx, hact'⟩
                  obtain ⟨hwf1, hact1, hord1⟩ :=
                    ih (idx + 1) (accI ++ [oi]) (accR ++ [ridGen idx]) s'
                      oitems rids s1 hwf' hacc' h
                  exact ⟨hwf1, hact1, hord1.trans hord'⟩

/-- C4: whenever the charge step fails with a payment-class error after
every line item was reserved, `process_checkout` raises exactly that
original error, every reservation made for the attempt ends in status
`released`, and the order store holds no record for the attempt (it is
exactly as before the call). -/
theorem C4_payment_failure_full_compensation (env : CheckoutEnv)
    (req : CheckoutRequest) (transaction_id order_uuid : String)
    (s : SysState) (user : UserRec) (e : Err) (oitems : List OrderItem)
    (rids : List String) (s1 : SysState)
    (hwf : WFState s)
    (hg : ∀ n, env.ridGen n ≠ "")
    (hval : validate_checkout_request env req = .ok ())
    (huser : get_user_by_id req.user_id s.db = .ok (some user))
    (hactive : user.is_active = true)
    (hres : validate_and_reserve_products req.items transaction_id
      env.ridGen s = (.ok (oitems, rids), s1))
    (hmin : ¬ checkoutTotal oitems < MIN_ORDER_AMOUNT)
    (hmax : ¬ checkoutTotal oitems > MAX_ORDER_AMOUNT)
    (hpay : (process_payment (checkoutTotal oitems) req.payment_details
      env.gateway env.txnGen 0).result = .error e)
    (hpe : isPaymentErr e = true) :
    (process_checkout env req transaction_id order_uuid s).1 = .error e ∧
    (∀ rid ∈ rids,
      resStatus rid
        (process_checkout env req transaction_id order_uuid s).2 =
        some .released) ∧
    (process_checkout env req transaction_id order_uuid s).2.db.orders =
      s.db.orders := by
  obtain ⟨hwf1, hact1, hord1⟩ := validate_and_reserve_loop_spec
    transaction_id env.ridGen hg req.items 0 [] [] s oitems rids s1 hwf
    (by simp) hres
  have hmin' : ¬ subtotalOf oitems + subtotalOf oitems * TAX_RATE <
      MIN_ORDER_AMOUNT := by simpa only [checkoutTotal] using hmin
  have hmax' : ¬ subtotalOf oitems + subtotalOf oitems * TAX_RATE >
      MAX_ORDER_AMOUNT := by simpa only [checkoutTotal] using hmax
  have hpay' : (process_payment
      (subtotalOf oitems + subtotalOf oitems * TAX_RATE)
      req.payment_details env.gateway env.txnGen 0).result = .error e := by
    simpa only [checkoutTotal] using hpay
  have hout : process_checkout env req transaction_id order_uuid s =
      (.error e, release_all_reservations rids s1) := by
    rw [process_checkout, hval]
    dsimp only
    rw [huser]
    dsimp only
    rw [hactive, if_neg (fun hc => hc rfl), hres]
    dsimp only
    rw [if_neg hmin', if_neg hmax', hpay']
    dsimp only
    rw [checkout_except, hpe, Bool.or_true, if_pos rfl]
  rw [hout]
  have hstat : ∀ rid ∈ rids, rid ≠ "" ∧
      (resStatus rid s1 = some .active ∨
       resStatus rid s1 = some .released) :=
    fun rid hmem =>
      ⟨(hact1 rid hmem).1, Or.inl (hact1 rid hmem).2⟩
  obtain ⟨hwfF, hordF, hpresF, hallF⟩ :=
    release_all_reservations_spec rids s1 hwf1 hstat
  exact ⟨rfl, fun rid hmem => hallF rid hmem, hordF.trans hord1⟩

/-- Witness for C4 at a concrete input: checkout of [2 × A, 1 × B] on the
fresh state, with a gateway that declines with `insufficient_funds`; both
reservations end released and no order is stored. -/
theorem C4_payment_failure_full_compensation_witness :
    (process_checkout envC4 reqAB "checkout_0" "order_0" sOK).1 =
      .error .insufficientFunds ∧
    (∀ rid ∈ ["res_0", "res_1"],
      resStatus rid
        (process_checkout envC4 reqAB "checkout_0" "order_0" sOK).2 =
        some .released) ∧
    (process_checkout envC4 reqAB "checkout_0" "order_0" sOK).2.db.orders =
      sOK.db.orders :=
  C4_payment_failure_full_compensation envC4 reqAB "checkout_0" "order_0"
    sOK { email := "jane@example.com" } .insufficientFunds oitemsC4
    ["res_0", "res_1"] s1C4
    (by constructor <;> decide)
    (by
      intro n
      by_cases h : n = 0 <;> simp [envC4, ridGenC4, h])
    (by decide) (by decide) (by decide) (by decide) (by decide) (by decide)
    (by decide) (by decide)

/-! ## Ledger-invariant lemmas (C5) -/

theorem activeReservedQty_cons (product_id : String)
    (p : String × Reservation) (l : List (String × Reservation)) :
    activeReservedQty product_id (p :: l) =
      resContrib product_id p.2 + activeReservedQty product_id l := by
  unfold activeReservedQty resContrib
  rw [List.map_cons, List.sum_cons]

theorem activeReservedQty_append (product_id : String)
    (l1 l2 : List (String × Reservation)) :
    activeReservedQty product_id (l1 ++ l2) =
      activeReservedQty product_id l1 + activeReservedQty product_id l2 := by
  unfold activeReservedQty
  rw [List.map_append, List.sum_append]

theorem resContrib_nonneg {product_id : String} {r : Reservation}
    (h : 0 < r.quantity) : 0 ≤ resContrib product_id r := by
  unfold resContrib
  split
  · omega
  · omega

theorem any_key_true_of_lookupA_some {β : Type} {l : List (String × β)}
    {k : String} {v : β} (h : lookupA k l = some v) :
    l.any (fun p => p.1 = k) = true := by
  cases hany : l.any (fun p => p.1 = k) with
  | false =>
      rw [lookupA_eq_none_of_any_false hany] at h
      exact Option.noConfusion h
  | true => rfl

theorem map_replace_id {β : Type} {k : String} {v : β} :
    ∀ {t : List (String × β)}, (∀ q ∈ t, q.1 ≠ k) →
      t.map (fun q => if q.1 = k then (k, v) else q) = t := by
  intro t
  induction t with
  | nil => intro _; rfl
  | cons q t ih =>
      intro h
      rw [List.map_cons, if_neg (h q (List.mem_cons_self _ _)),
        ih (fun q' hq' => h q' (List.mem_cons_of_mem _ hq'))]

theorem map_fst_replace {β : Type} (k : String) (v : β) :
    ∀ (l : List (String × β)),
      ((l.map (fun p => if p.1 = k then (k, v) else p)).map Prod.fst) =
        l.map Prod.fst := by
  intro l
  induction l with
  | nil => rfl
  | cons p t ih =>
      rw [List.map_cons, List.map_cons, List.map_cons]
      by_cases hp : p.1 = k
      · rw [if_pos hp, ih]
        show k :: _ = _
        rw [hp]
      · rw [if_neg hp, ih]

theorem nodup_keys_setA {β : Type} {k : String} {v : β}
    {l : List (String × β)} (hnd : (l.map Prod.fst).Nodup) :
    ((setA k v l).map Prod.fst).Nodup := by
  unfold setA
  split
  · rw [map_fst_replace]; exact hnd
  · rename_i hany
    rw [List.map_append, List.nodup_append]
    refine ⟨hnd, List.nodup_singleton _, ?_⟩
    intro a ha hb
    rw [List.map_singleton, List.mem_singleton] at hb
    subst hb
    obtain ⟨p, hp, hpk⟩ := List.mem_map.mp ha
    exact hany (List.any_eq_true.mpr ⟨p, hp, by simpa using hpk⟩)

theorem activeReservedQty_replace {product_id k : String}
    {v : Reservation} :
    ∀ {l : List (String × Reservation)} {r : Reservation},
      lookupA k l = some r → (l.map Prod.fst).Nodup →
      activeReservedQty product_id
          (l.map (fun p => if p.1 = k then (k, v) else p)) =
        activeReservedQty product_id l - resContrib product_id r +
          resContrib product_id v := by
  intro l
  induction l with
  | nil => intro r hl _; exact absurd hl (by simp [lookupA])
  | cons p t ih =>
      intro r hl hnd
      rw [List.map_cons] at hnd
      obtain ⟨hnotin, hnd2⟩ := List.nodup_cons.mp hnd
      rw [lookupA] at hl
      by_cases hp : p.1 = k
      · rw [if_pos hp] at hl
        obtain rfl := Option.some.inj hl
        have htail : t.map (fun q => if q.1 = k then (k, v) else q) = t :=
          map_replace_id (fun q hq hqk =>
            hnotin (by
              rw [hp, ← hqk]
              exact List.mem_map_of_mem Prod.fst hq))
        rw [List.map_cons, if_pos hp, htail, activeReservedQty_cons,
          activeReservedQty_cons]
        have hkv : resContrib product_id ((k, v) : String × Reservation).2 =
            resContrib product_id v := rfl
        rw [hkv]
        omega
      · rw [if_neg hp] at hl
        rw [List.map_cons, if_neg hp, activeReservedQty_cons,
          activeReservedQty_cons, ih hl hnd2]
        omega

theorem activeReservedQty_setA_present {product_id k : String}
    {v r : Reservation} {l : List (String × Reservation)}
    (hl : lookupA k l = some r) (hnd : (l.map Prod.fst).Nodup) :
    activeReservedQty product_id (setA k v l) =
      activeReservedQty product_id l - resContrib product_id r +
        resContrib product_id v := by
  unfold setA
  rw [if_pos (any_key_true_of_lookupA_some hl)]
  exact activeReservedQty_replace hl hnd

theorem activeReservedQty_setA_absent {product_id k : String}
    {v : Reservation} {l : List (String × Reservation)}
    (hl : lookupA k l = none) :
    activeReservedQty product_id (setA k v l) =
      activeReservedQty product_id l + resContrib product_id v := by
  rw [setA_append_of_lookupA_none hl, activeReservedQty_append]
  have h1 : activeReservedQty product_id [(k, v)] =
      resContrib product_id v := by
    rw [activeReservedQty_cons]
    show resContrib product_id v + 0 = resContrib product_id v
    omega
  rw [h1]

/-- Inserting a freshly validated `active` reservation under the
availability guard keeps the table invariant. -/
theorem ledgerInv_setA_active {l : List (String × Reservation)}
    {product_id : String} {quantity : Int}
    (order_id reservation_id : String)
    (hnd : (l.map Prod.fst).Nodup)
    (hpos : ∀ p ∈ l, 0 < p.2.quantity)
    (hbound : ∀ pid0, activeReservedQty pid0 l ≤ 100)
    (hq : 0 < quantity)
    (havail : quantity ≤ max 0 (100 - activeReservedQty product_id l)) :
    (((setA reservation_id
        ⟨product_id, quantity, order_id, .active⟩ l).map Prod.fst).Nodup) ∧
    (∀ p ∈ setA reservation_id
        ⟨product_id, quantity, order_id, .active⟩ l, 0 < p.2.quantity) ∧
    (∀ pid0, activeReservedQty pid0
        (setA reservation_id ⟨product_id, quantity, order_id, .active⟩ l)
      ≤ 100) := by
  have hqle : quantity ≤ 100 - activeReservedQty product_id l := by
    rcases le_or_lt (100 - activeReservedQty product_id l) 0 with hle | hlt
    · rw [max_eq_left hle] at havail; omega
    · rwa [max_eq_right (le_of_lt hlt)] at havail
  refine ⟨nodup_keys_setA hnd, ?_, ?_⟩
  · intro p hp
    rcases mem_setA hp with rfl | hp2
    · exact hq
    · exact hpos p hp2
  · intro pid0
    have hcnew : resContrib pid0
        (⟨product_id, quantity, order_id, .active⟩ : Reservation) =
        if product_id = pid0 then quantity else 0 := by
      unfold resContrib
      by_cases hp : product_id = pid0
      · rw [if_pos ⟨hp, rfl⟩, if_pos hp]
      · rw [if_neg (fun hc => hp hc.1), if_neg hp]
    cases hl : lookupA reservation_id l with
    | some r =>
        have hcr : 0 ≤ resContrib pid0 r :=
          resContrib_nonneg (hpos _ (lookupA_mem hl))
        rw [activeReservedQty_setA_present hl hnd, hcnew]
        by_cases hp : product_id = pid0
        · subst hp
          rw [if_pos rfl]
          omega
        · rw [if_neg hp]
          have := hbound pid0
          omega
    | none =>
        rw [activeReservedQty_setA_absent hl, hcnew]
        by_cases hp : product_id = pid0
        · subst hp
          rw [if_pos rfl]
          omega
        · rw [if_neg hp]
          have := hbound pid0
          omega

/-- Turning an existing reservation's status away from `active`
(`confirm`, `release`) keeps the table invariant. -/
theorem ledgerInv_setA_statusOff {l : List (String × Reservation)}
    {k : String} {r : Reservation} {st : RStatus}
    (hnd : (l.map Prod.fst).Nodup)
    (hpos : ∀ p ∈ l, 0 < p.2.quantity)
    (hbound : ∀ pid0, activeReservedQty pid0 l ≤ 100)
    (hl : lookupA k l = some r) (hst : st ≠ .active) :
    (((setA k ({ r with status := st }) l).map Prod.fst).Nodup) ∧
    (∀ p ∈ setA k ({ r with status := st }) l, 0 < p.2.quantity) ∧
    (∀ pid0,
      activeReservedQty pid0 (setA k ({ r with status := st }) l) ≤ 100) := by
  refine ⟨nodup_keys_setA hnd, ?_, ?_⟩
  · intro p hp
    rcases mem_setA hp with rfl | hp2
    · have h2 : 0 < r.quantity := hpos _ (lookupA_mem hl)
      exact h2
    · exact hpos p hp2
  · intro pid0
    have hcr : 0 ≤ resContrib pid0 r :=
      resContrib_nonneg (hpos _ (lookupA_mem hl))
    have hc0 : resContrib pid0 ({ r with status := st }) = 0 := by
      unfold resContrib
      rw [if_neg (fun hc => hst hc.2)]
    rw [activeReservedQty_setA_present hl hnd, hc0]
    have := hbound pid0
    omega

/-- The availability figure a successful `_get_available_stock` returns
for a known product. -/
theorem get_available_stock_ok_known {product_id : String} {s : SysState}
    {prod : ProductRec} {n : Int}
    (hp : get_product_by_id product_id s.db = .ok (some prod))
    (h : get_available_stock product_id s = .ok n) :
    n = max 0 (100 - activeReservedQty product_id s.reservations) := by
  unfold get_available_stock at h
  rw [hp] at h
  exact (Except.ok.inj h).symm

theorem ledgerInv_reserve_stock (product_id : String) (quantity : Int)
    (order_id reservation_id : String) (s : SysState)
    (hinv : LedgerInv s) :
    LedgerInv
      (reserve_stock product_id quantity order_id reservation_id s).2 := by
  obtain ⟨hnd, hpos, hbound⟩ := hinv
  by_cases h1 : product_id = ""
  · simp only [reserve_stock, if_pos h1]
    exact ⟨hnd, hpos, hbound⟩
  by_cases h2 : quantity ≤ 0
  · simp only [reserve_stock, if_neg h1, if_pos h2]
    exact ⟨hnd, hpos, hbound⟩
  by_cases h3 : quantity > 1000
  · simp only [reserve_stock, if_neg h1, if_neg h2, if_pos h3]
    exact ⟨hnd, hpos, hbound⟩
  simp only [reserve_stock, if_neg h1, if_neg h2, if_neg h3]
  cases hprodeq : get_product_by_id product_id s.db with
  | error e => exact ⟨hnd, hpos, hbound⟩
  | ok po =>
      cases po with
      | none => exact ⟨hnd, hpos, hbound⟩
      | some prod =>
          dsimp only
          cases havaileq : get_available_stock product_id s with
          | error e => exact ⟨hnd, hpos, hbound⟩
          | ok avail =>
              dsimp only
              by_cases hlt : avail < quantity
              · rw [if_pos hlt]
                exact ⟨hnd, hpos, hbound⟩
              · rw [if_neg hlt]
                have havail2 : quantity ≤
                    max 0 (100 -
                      activeReservedQty product_id s.reservations) := by
                  rw [← get_available_stock_ok_known hprodeq havaileq]
                  omega
                have hq : 0 < quantity := by omega
                have hins := ledgerInv_setA_active order_id
                  reservation_id hnd hpos hbound hq havail2
                cases huieq : update_inventory product_id (-quantity) s.db
                  with
                | mk res db2 =>
                    cases res with
                    | error e => exact hins
                    | ok b => exact hins

theorem ledgerInv_confirm_reservation (reservation_id : String)
    (s : SysState) (hinv : LedgerInv s) :
    LedgerInv (confirm_reservation reservation_id s).2 := by
  obtain ⟨hnd, hpos, hbound⟩ := hinv
  rw [confirm_reservation]
  split
  · exact ⟨hnd, hpos, hbound⟩
  rename_i r hl
  split
  · exact ⟨hnd, hpos, hbound⟩
  · exact ledgerInv_setA_statusOff hnd hpos hbound hl (by decide)

theorem ledgerInv_release_stock (reservation_id product_id : Option String)
    (quantity : Option Int) (s : SysState) (hinv : LedgerInv s) :
    LedgerInv (release_stock reservation_id product_id quantity s).2 := by
  obtain ⟨hnd, hpos, hbound⟩ := hinv
  simp only [release_stock]
  split
  · cases hl : lookupA (reservation_id.getD "") s.reservations with
    | none => exact ⟨hnd, hpos, hbound⟩
    | some r =>
        dsimp only
        by_cases hst : r.status ≠ .active
        · rw [if_pos hst]
          exact ⟨hnd, hpos, hbound⟩
        · rw [if_neg hst]
          cases huieq : update_inventory r.productId r.quantity s.db with
          | mk res db2 =>
              cases res with
              | error e => exact ⟨hnd, hpos, hbound⟩
              | ok b =>
                  exact ledgerInv_setA_statusOff hnd hpos hbound hl
                    (by decide)
  · split
    · cases huieq : update_inventory (product_id.getD "")
          (quantity.getD 0) s.db with
      | mk res db2 =>
          cases res with
          | error e => exact ⟨hnd, hpos, hbound⟩
          | ok b => exact ⟨hnd, hpos, hbound⟩
    · exact ⟨hnd, hpos, hbound⟩

theorem ledgerInv_expire_reservation (reservation_id : String)
    (s : SysState) (hinv : LedgerInv s) :
    LedgerInv (expire_reservation reservation_id s) := by
  rw [expire_reservation]
  split
  · exact hinv
  split
  · exact ledgerInv_release_stock _ _ _ _ hinv
  · exact hinv

/-- Every atomic ledger step preserves the invariant. -/
theorem ledgerInv_step {s s' : SysState} (h : LedgerStep s s')
    (hinv : LedgerInv s) : LedgerInv s' := by
  cases h with
  | reserve product_id quantity order_id reservation_id s =>
      exact ledgerInv_reserve_stock product_id quantity order_id
        reservation_id s hinv
  | confirm reservation_id s =>
      exact ledgerInv_confirm_reservation reservation_id s hinv
  | release reservation_id product_id quantity s =>
      exact ledgerInv_release_stock reservation_id product_id quantity s
        hinv
  | expire reservation_id s =>
      exact ledgerInv_expire_reservation reservation_id s hinv
  | dbWrite db' s => exact hinv

/-- The invariant holds in every state reachable from an
empty-reservation-table state by any interleaving of the atomic steps. -/
theorem ledgerInv_reachable {s0 s : SysState} (h0 : s0.reservations = [])
    (hsteps : Relation.ReflTransGen LedgerStep s0 s) : LedgerInv s := by
  induction hsteps with
  | refl =>
      refine ⟨?_, ?_, ?_⟩
      · rw [h0]; exact List.nodup_nil
      · rw [h0]; intro p hp; exact absurd hp (List.not_mem_nil p)
      · intro pid0
        rw [h0]
        show (0 : Int) ≤ 100
        omega
  | tail _ hstep ih => exact ledgerInv_step hstep ih

/-- C5: in every state reachable (by any interleaving of atomic ledger
operations and database writes) from a state with an empty reservation
table, the available stock of every known product equals the simulated
total stock of 100 units minus the sum of its active reservations'
quantities, and is never negative.  Atomicity of the check-then-decrement
in `reserve_stock` is what the single-step `LedgerStep.reserve` models:
the whole critical section is one step, so no interleaving can drive the
quantity negative. -/
theorem C5_available_stock_invariant (s0 s : SysState)
    (h0 : s0.reservations = [])
    (hsteps : Relation.ReflTransGen LedgerStep s0 s)
    (product_id : String) (hpid : product_id ≠ "")
    (hknown : (lookupA product_id s.db.products).isSome = true) :
    get_available_stock product_id s =
      .ok (100 - activeReservedQty product_id s.reservations) ∧
    0 ≤ 100 - activeReservedQty product_id s.reservations := by
  have hinv : LedgerInv s := ledgerInv_reachable h0 hsteps
  have hb := hinv.2.2 product_id
  have hge : 0 ≤ 100 - activeReservedQty product_id s.reservations := by
    omega
  obtain ⟨prod, hp⟩ := Option.isSome_iff_exists.mp hknown
  have hprod : get_product_by_id product_id s.db = .ok (some prod) := by
    unfold get_product_by_id
    rw [if_neg hpid, hp]
  refine ⟨?_, hge⟩
  unfold get_available_stock
  rw [hprod, max_eq_right hge]

/-- Witness for C5 at a concrete input: one reserve step from the fresh
state; product A has 2 units actively reserved, so 98 are available. -/
theorem C5_available_stock_invariant_witness :
    get_available_stock "prod_A"
        (reserve_stock "prod_A" 2 "order_1" "res_0" sOK).2 =
      .ok (100 - activeReservedQty "prod_A"
        (reserve_stock "prod_A" 2 "order_1" "res_0" sOK).2.reservations) ∧
    0 ≤ 100 - activeReservedQty "prod_A"
      (reserve_stock "prod_A" 2 "order_1" "res_0" sOK).2.reservations :=
  C5_available_stock_invariant sOK
    (reserve_stock "prod_A" 2 "order_1" "res_0" sOK).2 rfl
    (Relation.ReflTransGen.single
      (LedgerStep.reserve "prod_A" 2 "order_1" "res_0" sOK))
    "prod_A" (by decide) (by decide)

/-- Against an always-transient gateway, `process_payment_go` attempts once
per remaining budget slot: attempts are numbered consecutively from
`retry_count + 1`, the backoff before each retry is `2 ^ retry_count`
seconds, and the run ends in `PaymentGatewayError`. -/
theorem process_payment_go_transient (amount : Rat)
    (card_data : List (String × String)) (gw : Nat → GatewayResp)
    (txnGen : Nat → String)
    (hamt1 : ¬ amount ≤ 0) (hamt2 : ¬ amount > 10000)
    (hcard : (["card_number", "expiry_month", "expiry_year", "cvv"].filter
      (fun f => (lookupA f card_data).isNone)) = [])
    (hgw : alwaysTransient gw) :
    ∀ fuel retry_count, retry_count ≤ MAX_PAYMENT_RETRIES →
      MAX_PAYMENT_RETRIES - retry_count < fuel →
      (process_payment_go amount card_data gw txnGen fuel
          retry_count).result = .error .paymentGateway ∧
      (process_payment_go amount card_data gw txnGen fuel
          retry_count).attempts =
        (List.range' retry_count
            (MAX_PAYMENT_RETRIES + 1 - retry_count)).map
          (fun n => { txnId := txnGen n, attemptNumber := n + 1 }) ∧
      (process_payment_go amount card_data gw txnGen fuel
          retry_count).sleeps =
        (List.range' retry_count (MAX_PAYMENT_RETRIES - retry_count)).map
          (fun n => 2 ^ n) := by
  intro fuel
  induction fuel with
  | zero => intro retry_count hrc hfuel; omega
  | succ fuel' ih =>
      intro retry_count hrc hfuel
      rw [process_payment_go]
      rw [if_neg hamt1, if_neg hamt2, if_neg (by simp [hcard])]
      dsimp only
      by_cases hlt : retry_count < MAX_PAYMENT_RETRIES
      · have hrange1 : MAX_PAYMENT_RETRIES + 1 - retry_count =
            (MAX_PAYMENT_RETRIES + 1 - (retry_count + 1)) + 1 := by omega
        have hrange2 : MAX_PAYMENT_RETRIES - retry_count =
            (MAX_PAYMENT_RETRIES - (retry_count + 1)) + 1 := by omega
        have hrest := ih (retry_count + 1) (by omega) (by omega)
        rcases hgw retry_count with hto | ⟨code, hcode, hretry⟩
        · rw [hto]
          dsimp only
          rw [if_pos hlt]
          dsimp only
          refine ⟨hrest.1, ?_, ?_⟩
          · rw [hrange1, List.range'_succ, List.map_cons, hrest.2.1]
          · rw [hrange2, List.range'_succ, List.map_cons, hrest.2.2]
        · rw [hcode]
          dsimp only
          rw [if_pos ⟨hretry, hlt⟩]
          dsimp only
          refine ⟨hrest.1, ?_, ?_⟩
          · rw [hrange1, List.range'_succ, List.map_cons, hrest.2.1]
          · rw [hrange2, List.range'_succ, List.map_cons, hrest.2.2]
      · have hmax : retry_count = MAX_PAYMENT_RETRIES := by omega
        have hrange1 : MAX_PAYMENT_RETRIES + 1 - retry_count = 1 := by omega
        have hrange2 : MAX_PAYMENT_RETRIES - retry_count = 0 := by omega
        rcases hgw retry_count with hto | ⟨code, hcode, hretry⟩
        · rw [hto]
          dsimp only
          rw [if_neg hlt]
          exact ⟨rfl, by rw [hrange1]; rfl, by rw [hrange2]; rfl⟩
        · rw [hcode]
          dsimp only
          rw [if_neg (fun hc => hlt hc.2)]
          exact ⟨rfl, by rw [hrange1]; rfl, by rw [hrange2]; rfl⟩

/-- C6: with `MAX_PAYMENT_RETRIES = 3` and a gateway mock that always
fails transiently, `charge` makes exactly 4 attempts (1 initial + 3
retries) numbered 1..4, then fails with `PaymentGatewayError`
(gateway unavailable); the backoff delays slept between attempts are
`2 ^ attempt` seconds = [1, 2, 4], which is non-decreasing. -/
theorem C6_retry_bound_and_backoff (amount : Rat)
    (card_data : List (String × String)) (gw : Nat → GatewayResp)
    (txnGen : Nat → String)
    (hamt1 : ¬ amount ≤ 0) (hamt2 : ¬ amount > 10000)
    (hcard : (["card_number", "expiry_month", "expiry_year", "cvv"].filter
      (fun f => (lookupA f card_data).isNone)) = [])
    (hgw : alwaysTransient gw) :
    (process_payment amount card_data gw txnGen 0).result =
      .error .paymentGateway ∧
    (process_payment amount card_data gw txnGen 0).attempts.length =
      MAX_PAYMENT_RETRIES + 1 ∧
    (process_payment amount card_data gw txnGen 0).attempts.map
      (fun a => a.attemptNumber) = [1, 2, 3, 4] ∧
    (process_payment amount card_data gw txnGen 0).sleeps = [1, 2, 4] ∧
    List.Chain' (fun a b => a ≤ b)
      (process_payment amount card_data gw txnGen 0).sleeps := by
  have h := process_payment_go_transient amount card_data gw txnGen hamt1
    hamt2 hcard hgw (MAX_PAYMENT_RETRIES + 1) 0 (by omega) (by omega)
  have hsl : (process_payment amount card_data gw txnGen 0).sleeps =
      [1, 2, 4] := by
    rw [process_payment, h.2.2]; rfl
  refine ⟨h.1, ?_, ?_, hsl, ?_⟩
  · rw [process_payment, h.2.1, List.length_map]; rfl
  · rw [process_payment, h.2.1, List.map_map]; rfl
  · rw [hsl]
    refine List.Chain'.cons (by omega) (List.Chain'.cons (by omega) ?_)
    exact List.chain'_singleton 4

/-- Witness for C6 at a concrete input: amount 100, a complete card dict,
and a gateway that always times out at the gateway-error level. -/
theorem C6_retry_bound_and_backoff_witness :
    (process_payment 100 cardOK (fun _ => .errorResp "gateway_timeout")
        (fun n => "txn_" ++ Nat.repr n) 0).attempts.map
      (fun a => a.attemptNumber) = [1, 2, 3, 4] :=
  (C6_retry_bound_and_backoff 100 cardOK
    (fun _ => .errorResp "gateway_timeout") (fun n => "txn_" ++ Nat.repr n)
    (by decide) (by decide) (by decide)
    (fun n => Or.inr ⟨"gateway_timeout", rfl, by decide⟩)).2.2.1

end ECom
